import Mathlib

/-!
Shallow embedding of the original logic of `src/main.js` (a farm-pickup map
demo): the chip-driven card filter (`isMatch`), the attribute filter
expression built for the map layer, the debounced hover state update
(`debouncedGraphicUpdate`), and the pointer-move error discrimination.
External SDK behaviour (spatial hit-testing, LIKE evaluation on the server,
abort-error detection) is modelled only as far as the verified claims need.
-/

namespace FarmMap

/-- JS `product.replace(" ", "_")` on the character list: `String.replace`
with a plain-string argument replaces only the first occurrence. -/
def replaceFirstSpace : List Char → List Char
  | [] => []
  | c :: cs => if c = ' ' then '_' :: cs else c :: replaceFirstSpace cs

/-- JS `product.replace(" ", "_")` as used in the chip-filter handler
(main.js line 205). -/
def jsReplaceSpace (s : String) : String :=
  String.mk (replaceFirstSpace s.data)

/-- The card-filter test from main.js lines 203-206: a feature matches when
the number of its products whose space-to-underscore form occurs among the
selected chip values equals the number of selected values
(`feature.products.filter(p => productFilter.includes(p.replace(" ", "_"))).length === productFilter.length`). -/
def isMatch (products productFilter : List String) : Bool :=
  (products.filter (fun product => productFilter.contains (jsReplaceSpace product))).length
    == productFilter.length

/-- A normalized feature record, reduced to the field the filter handler
reads (`feature.products`, the pre-split category list). -/
structure FeatureRec where
  products : List String
  deriving DecidableEq

/-- The cards rebuilt by the chip-selection handler (main.js lines 202-210):
the container is cleared and exactly the records passing `isMatch` are
re-rendered via `displayCard`. -/
def renderedCards (features : List FeatureRec) (productFilter : List String) :
    List FeatureRec :=
  features.filter (fun feature => isMatch feature.products productFilter)

/-- The spec-side filter semantics, written from the words of the spec:
every selected category must appear in the record (transformed) categories
(superset semantics). Used only to compare against `isMatch`. -/
def specSupersetMatch (products productFilter : List String) : Bool :=
  productFilter.all (fun sel => (products.map jsReplaceSpace).contains sel)

/-- JS `Array.prototype.join(", ")` as used to build the where clause
(main.js line 190). -/
def joinCS : List String → String
  | [] => ""
  | [s] => s
  | s :: rest => s ++ ", " ++ joinCS rest

/-- The pattern of the single LIKE clause the handler constructs
(main.js line 190): percent, the selected values joined by comma-space,
percent. The full clause is `Main_Products LIKE` followed by this pattern
in quotes. -/
def productLikePattern (productFilter : List String) : String :=
  "%" ++ joinCS productFilter ++ "%"

/-- `prefixSeg n h` holds when `n` is an initial segment of `h`. -/
def prefixSeg : List Char → List Char → Bool
  | [], _ => true
  | _ :: _, [] => false
  | a :: n, b :: h => a == b && prefixSeg n h

/-- `containsSeg n h` holds when `n` occurs as a contiguous segment of `h`. -/
def containsSeg (needle : List Char) : List Char → Bool
  | [] => needle.isEmpty
  | c :: t => prefixSeg needle (c :: t) || containsSeg needle t

/-- `SegIn n h`: `n` occurs contiguously inside `h` (propositional form). -/
def SegIn (needle hay : List Char) : Prop :=
  ∃ pre post, pre ++ needle ++ post = hay

/-- Modelled from the spec: the spatial query service evaluates the
constructed clause `Main_Products LIKE` with pattern percent-needle-percent
as a contiguous-substring test of the needle against the field value
(the selected chip values contain no LIKE wildcards). -/
def likeAnywhere (needle value : String) : Bool :=
  containsSeg needle.data value.data

/-- Which features the constructed attribute filter (main.js lines 189-191)
matches: the comma-space join of the selected values, tested as a
substring of the raw `Main_Products` field. -/
def featureFilterMatches (productFilter : List String) (mainProducts : String) :
    Bool :=
  likeAnywhere (joinCS productFilter) mainProducts

/-- A graphic as the hover handler sees it: the object id attribute
(`attributes[objectIdField]`) and whether its layer carries a popup
template (the eligibility test of main.js line 156). -/
structure Graphic where
  id : Nat
  layerHasPopup : Bool
  deriving DecidableEq

/-- One entry of `hitTest.results`. -/
structure HitResult where
  graphic : Graphic
  deriving DecidableEq

/-- The value of the JS `objectId` variable: `undefined` before the first
hover, a numeric id after a selection, or the `defaultGraphic` object that
the no-result branch assigns (`objectId = feature.graphic = defaultGraphic`). -/
inductive ObjIdVal where
  | undef
  | num (n : Nat)
  | defaultGraphic
  deriving DecidableEq

/-- The mutable hover state of main.js lines 148-170: the `objectId`
variable, the `highlight` handle variable (recorded as the id it was
created for; it is never reset to `undefined`), the currently active
highlight (none once `remove()` has run), and the detail panel
`feature.graphic` (`none` stands for `defaultGraphic`). -/
structure HoverState where
  objectId : ObjIdVal
  highlightVar : Option Nat
  active : Option Nat
  panel : Option Graphic
  deriving DecidableEq

/-- Observable side effects of one handler run: `highlight.remove()`,
assignment of `feature.graphic` (`none` = the default graphic), and
`layerView.highlight(graphic)`. -/
inductive Effect where
  | remove (id : Nat)
  | setPanel (g : Option Graphic)
  | create (id : Nat)
  deriving DecidableEq

/-- The `highlight?.remove()` call: an effect only when the handle
variable is set. -/
def removeFx (s : HoverState) : List Effect :=
  match s.highlightVar with
  | some h => [Effect.remove h]
  | none => []

/-- The body of the debounced hover handler (main.js lines 151-170) as a
state transformer. `results` keeps the hits whose layer has a popup
template; `results[0]` is the acted-upon result. JS `!newId` is true both
when there is no result (`newId` undefined) and when the id attribute is
`0` (falsy), so both take the clearing branch; otherwise
`objectId !== newId` selects between the re-highlight branch and the
silent no-op. The panel value `none` stands for `defaultGraphic`. -/
def debouncedGraphicUpdate (s : HoverState) (hits : List HitResult) :
    HoverState × List Effect :=
  match (hits.filter (fun result => result.graphic.layerHasPopup)).head? with
  | none =>
      (⟨ObjIdVal.defaultGraphic, s.highlightVar, none, none⟩,
        removeFx s ++ [Effect.setPanel none])
  | some result =>
      if result.graphic.id = 0 then
        (⟨ObjIdVal.defaultGraphic, s.highlightVar, none, none⟩,
          removeFx s ++ [Effect.setPanel none])
      else if s.objectId ≠ ObjIdVal.num result.graphic.id then
        (⟨ObjIdVal.num result.graphic.id, some result.graphic.id,
            some result.graphic.id, some result.graphic⟩,
          removeFx s ++
            [Effect.setPanel (some result.graphic),
              Effect.create result.graphic.id])
      else (s, [])

/-- The hover state right after setup (main.js lines 143-148): both
`highlight` and `objectId` are undefined and the default panel is shown. -/
def initState : HoverState :=
  ⟨ObjIdVal.undef, none, none, none⟩

/-- Runs the hover handler over a sequence of hit-test result lists,
starting from the initial state. -/
def runHover (events : List (List HitResult)) : HoverState :=
  events.foldl (fun s ev => (debouncedGraphicUpdate s ev).1) initState

/-- The invariant of the spec data model: the detail panel and the active
highlight reference the same feature, or both are in the no-selection
default state. -/
def PanelHighlightInv (s : HoverState) : Prop :=
  (s.active = none ∧ s.panel = none) ∨
    ∃ g : Graphic, s.active = some g.id ∧ s.panel = some g

/-- An error value as the pointer-move catch callback sees it; the external
SDK discriminates abort errors by their name. -/
structure JsError where
  name : String
  deriving DecidableEq

/-- Modelled external SDK predicate `promiseUtils.isAbortError`: true
exactly for aborted or cancelled promise rejections. -/
def isAbortError (e : JsError) : Bool :=
  e.name == "AbortError"

/-- The catch callback of main.js lines 173-178: returns the error it
re-throws to the hosting environment, or `none` when the error is
swallowed (`if (!promiseUtils.isAbortError(error)) throw error`). -/
def pointerMoveErrorHandler (error : JsError) : Option JsError :=
  if !isAbortError error then some error else none

end FarmMap

namespace FarmMap

/-- One handler run preserves the panel-highlight invariant. -/
theorem panelHighlightInv_step (s : HoverState) (hits : List HitResult)
    (h : PanelHighlightInv s) :
    PanelHighlightInv (debouncedGraphicUpdate s hits).1 := by
  unfold debouncedGraphicUpdate
  split
  · exact Or.inl ⟨rfl, rfl⟩
  · split
    · exact Or.inl ⟨rfl, rfl⟩
    · split
      · exact Or.inr ⟨_, rfl, rfl⟩
      · exact h

/-- The handler only ever stores a nonzero numeric id in `objectId`. -/
theorem objectId_num_step (s : HoverState) (hits : List HitResult) (n : Nat)
    (hs : ∀ m, s.objectId = ObjIdVal.num m → m ≠ 0)
    (h : (debouncedGraphicUpdate s hits).1.objectId = ObjIdVal.num n) :
    n ≠ 0 := by
  unfold debouncedGraphicUpdate at h
  revert h
  split
  · intro h; exact absurd h (by simp)
  case h_2 result heq =>
    split
    · intro h; exact absurd h (by simp)
    case isFalse h0 =>
      split
      · intro h
        simp only [HoverState.mk.injEq] at h ⊢
        cases h
        exact h0
      · intro h; exact hs n h

/-- In every reachable hover state, a numeric `objectId` is nonzero. -/
theorem runHover_objectId_nonzero (events : List (List HitResult)) (n : Nat)
    (h : (runHover events).objectId = ObjIdVal.num n) : n ≠ 0 := by
  have aux : ∀ (evs : List (List HitResult)) (s : HoverState),
      (∀ m, s.objectId = ObjIdVal.num m → m ≠ 0) →
      ∀ m, (evs.foldl (fun t ev => (debouncedGraphicUpdate t ev).1) s).objectId
        = ObjIdVal.num m → m ≠ 0 := by
    intro evs
    induction evs with
    | nil => intro s hs; exact hs
    | cons e rest ih =>
      intro s hs
      exact ih _ (fun m => objectId_num_step s e m hs)
  exact aux events initState (by intro m hm; exact absurd hm (by simp [initState])) n h

/-- C4: after every completed hover-handler run (every reachable state of
the Highlight State), the displayed detail panel and the active highlight
reference the same feature, or both are in the no-selection default state. -/
theorem panel_highlight_invariant (events : List (List HitResult)) :
    PanelHighlightInv (runHover events) := by
  have aux : ∀ (evs : List (List HitResult)) (s : HoverState),
      PanelHighlightInv s →
      PanelHighlightInv (evs.foldl (fun t ev => (debouncedGraphicUpdate t ev).1) s) := by
    intro evs
    induction evs with
    | nil => intro s hs; exact hs
    | cons e rest ih => intro s hs; exact ih _ (panelHighlightInv_step s e hs)
  exact aux events initState (Or.inl ⟨rfl, rfl⟩)

/-- C5: from any reachable state Selected(id), a hit-test whose topmost
eligible result carries the same id is a silent no-op: the state is
unchanged and no effect (no highlight removal or creation, no panel
update) is emitted. -/
theorem hover_same_id_noop (events : List (List HitResult))
    (hits : List HitResult) (r : HitResult) (i : Nat)
    (hsel : (runHover events).objectId = ObjIdVal.num i)
    (hr : (hits.filter (fun x => x.graphic.layerHasPopup)).head? = some r)
    (hid : r.graphic.id = i) :
    debouncedGraphicUpdate (runHover events) hits = (runHover events, []) := by
  have hnz : i ≠ 0 := runHover_objectId_nonzero events i hsel
  unfold debouncedGraphicUpdate
  rw [hr]
  simp [hid, hsel, hnz]

/-- Witness for C5: after hovering feature 1, hovering feature 1 again
changes nothing and emits no effect. -/
theorem hover_same_id_noop_witness :
    debouncedGraphicUpdate (runHover [[⟨⟨1, true⟩⟩]]) [⟨⟨1, true⟩⟩]
      = (runHover [[⟨⟨1, true⟩⟩]], []) :=
  hover_same_id_noop [[⟨⟨1, true⟩⟩]] [⟨⟨1, true⟩⟩] ⟨⟨1, true⟩⟩ 1
    (by decide) (by decide) (by decide)

/-- C6: when a hit-test yields no eligible result, the handler removes any
existing highlight handle, deactivates the highlight, stores the
no-selection sentinel in `objectId`, and shows the default panel. -/
theorem hover_no_eligible_clears (s : HoverState) (hits : List HitResult)
    (h : hits.filter (fun r => r.graphic.layerHasPopup) = []) :
    debouncedGraphicUpdate s hits =
      (⟨ObjIdVal.defaultGraphic, s.highlightVar, none, none⟩,
        removeFx s ++ [Effect.setPanel none]) := by
  unfold debouncedGraphicUpdate
  rw [h]
  rfl

/-- Witness for C6: a hit-test whose only result lies on a layer without a
popup template clears to the default state. -/
theorem hover_no_eligible_clears_witness :
    debouncedGraphicUpdate (runHover [[⟨⟨1, true⟩⟩]]) [⟨⟨5, false⟩⟩]
      = (⟨ObjIdVal.defaultGraphic, (runHover [[⟨⟨1, true⟩⟩]]).highlightVar, none, none⟩,
        removeFx (runHover [[⟨⟨1, true⟩⟩]]) ++ [Effect.setPanel none]) :=
  hover_no_eligible_clears (runHover [[⟨⟨1, true⟩⟩]]) [⟨⟨5, false⟩⟩] (by decide)

/-- C7 as stated is false: from the reachable state Selected(1), a topmost
eligible result with the different id 0 does not produce Selected(0) with
a new highlight; the JS truthiness test `!newId` sends it to the clearing
branch instead (default panel, no active highlight). -/
theorem hover_zero_id_not_selected :
    (([⟨⟨0, true⟩⟩] : List HitResult).filter
        (fun x => x.graphic.layerHasPopup)).head? = some ⟨⟨0, true⟩⟩ ∧
    (runHover [[⟨⟨1, true⟩⟩]]).objectId = ObjIdVal.num 1 ∧
    (debouncedGraphicUpdate (runHover [[⟨⟨1, true⟩⟩]]) [⟨⟨0, true⟩⟩]).1.objectId
      = ObjIdVal.defaultGraphic ∧
    (debouncedGraphicUpdate (runHover [[⟨⟨1, true⟩⟩]]) [⟨⟨0, true⟩⟩]).1.active
      = none ∧
    (debouncedGraphicUpdate (runHover [[⟨⟨1, true⟩⟩]]) [⟨⟨0, true⟩⟩]).1.panel
      = none := by
  decide

/-- C7 (amended: nonzero id): when the topmost eligible result has a
nonzero id different from the current selection, the handler removes the
old highlight handle if present, stores Selected(newId), shows that
feature's graphic in the detail panel, and creates a new highlight for it. -/
theorem hover_different_nonzero_id_selects (s : HoverState)
    (hits : List HitResult) (r : HitResult)
    (hr : (hits.filter (fun x => x.graphic.layerHasPopup)).head? = some r)
    (hnz : r.graphic.id ≠ 0)
    (hdiff : s.objectId ≠ ObjIdVal.num r.graphic.id) :
    debouncedGraphicUpdate s hits =
      (⟨ObjIdVal.num r.graphic.id, some r.graphic.id, some r.graphic.id,
          some r.graphic⟩,
        removeFx s ++
          [Effect.setPanel (some r.graphic), Effect.create r.graphic.id]) := by
  unfold debouncedGraphicUpdate
  rw [hr]
  simp [hnz, hdiff]

/-- Witness for the amended C7: from Selected(1), hovering feature 2
removes the old highlight, shows feature 2 and highlights it. -/
theorem hover_different_nonzero_id_selects_witness :
    debouncedGraphicUpdate (runHover [[⟨⟨1, true⟩⟩]]) [⟨⟨2, true⟩⟩]
      = (⟨ObjIdVal.num 2, some 2, some 2, some ⟨2, true⟩⟩,
        removeFx (runHover [[⟨⟨1, true⟩⟩]]) ++
          [Effect.setPanel (some ⟨2, true⟩), Effect.create 2]) :=
  hover_different_nonzero_id_selects (runHover [[⟨⟨1, true⟩⟩]])
    [⟨⟨2, true⟩⟩] ⟨⟨2, true⟩⟩ (by decide) (by decide) (by decide)

/-- C10: eligibility is exactly "the layer of the result carries a popup
template", and a handler run depends only on the first eligible result of
the hit-test order: two hit-test result lists with the same first eligible
result produce identical state updates and effects, so every ineligible
result is ignored. -/
theorem hover_depends_only_on_first_eligible (s : HoverState)
    (hits1 hits2 : List HitResult)
    (h : (hits1.filter (fun r => r.graphic.layerHasPopup)).head?
        = (hits2.filter (fun r => r.graphic.layerHasPopup)).head?) :
    debouncedGraphicUpdate s hits1 = debouncedGraphicUpdate s hits2 := by
  unfold debouncedGraphicUpdate
  rw [h]

/-- Witness for C10: an ineligible result in front and a trailing eligible
result do not change the outcome determined by the first eligible result. -/
theorem hover_depends_only_on_first_eligible_witness :
    debouncedGraphicUpdate initState [⟨⟨7, false⟩⟩, ⟨⟨3, true⟩⟩, ⟨⟨4, true⟩⟩]
      = debouncedGraphicUpdate initState [⟨⟨3, true⟩⟩] :=
  hover_depends_only_on_first_eligible initState
    [⟨⟨7, false⟩⟩, ⟨⟨3, true⟩⟩, ⟨⟨4, true⟩⟩] [⟨⟨3, true⟩⟩] (by decide)

/-- C8: the pointer-move catch callback swallows a failure exactly when it
is an aborted/cancelled-promise failure, and re-raises every other failure
unchanged to the hosting environment. -/
theorem pointer_move_error_discrimination (e : JsError) :
    (pointerMoveErrorHandler e = none ↔ isAbortError e = true) ∧
    (pointerMoveErrorHandler e = some e ↔ isAbortError e = false) := by
  unfold pointerMoveErrorHandler
  cases h : isAbortError e <;> simp

/-- C9: an empty chip selection makes every feature record match, so the
rebuilt card list contains all records. -/
theorem empty_filter_matches_all (features : List FeatureRec) :
    renderedCards features [] = features := by
  simp [renderedCards, isMatch]

end FarmMap

namespace FarmMap

/-- With duplicate-free lists, the count of members of `l` lying in `s`
reaches the length of `s` exactly when every member of `s` is in `l`. -/
theorem length_filter_contains_eq_iff {l s : List String}
    (hl : l.Nodup) (hs : s.Nodup) :
    (l.filter (fun t => s.contains t)).length = s.length ↔ ∀ x ∈ s, x ∈ l := by
  classical
  have hfin : (l.filter (fun t => s.contains t)).toFinset
      = l.toFinset ∩ s.toFinset := by
    ext x
    simp [List.mem_filter, List.contains, List.elem_iff]
  have hlen1 : (l.filter (fun t => s.contains t)).length
      = (l.toFinset ∩ s.toFinset).card := by
    rw [← List.toFinset_card_of_nodup (List.Nodup.filter _ hl), hfin]
  have hlen2 : s.length = s.toFinset.card :=
    (List.toFinset_card_of_nodup hs).symm
  rw [hlen1, hlen2]
  constructor
  · intro hcard x hx
    have hsub : l.toFinset ∩ s.toFinset = s.toFinset :=
      Finset.eq_of_subset_of_card_le Finset.inter_subset_right
        (le_of_eq hcard.symm)
    have hx2 : x ∈ l.toFinset ∩ s.toFinset :=
      hsub.symm ▸ List.mem_toFinset.mpr hx
    exact List.mem_toFinset.mp (Finset.mem_inter.mp hx2).1
  · intro hx
    have hsub : s.toFinset ⊆ l.toFinset := fun x hxs =>
      List.mem_toFinset.mpr (hx x (List.mem_toFinset.mp hxs))
    rw [Finset.inter_eq_right.mpr hsub]

/-- C1 as stated is false: a record whose product list repeats a selected
category passes `isMatch` and is re-rendered although its category list is
not a superset of the selected set (the code counts matching products with
multiplicity instead of testing containment). -/
theorem isMatch_dup_products_not_superset :
    isMatch ["Eggs", "Eggs"] ["Eggs", "Honey"] = true ∧
    specSupersetMatch ["Eggs", "Eggs"] ["Eggs", "Honey"] = false ∧
    renderedCards [⟨["Eggs", "Eggs"]⟩] ["Eggs", "Honey"]
      = [⟨["Eggs", "Eggs"]⟩] := by
  decide

/-- C1 (amended: duplicate-free lists): when the transformed product list
of a record and the selected values are duplicate-free, the card filter
passes exactly the records whose (space-to-underscore transformed)
category list contains every selected category. -/
theorem isMatch_iff_superset_of_nodup (products productFilter : List String)
    (h1 : (products.map jsReplaceSpace).Nodup) (h2 : productFilter.Nodup) :
    isMatch products productFilter = true ↔
      ∀ sel ∈ productFilter, sel ∈ products.map jsReplaceSpace := by
  simp only [isMatch, beq_iff_eq]
  have hlen : ((products.map jsReplaceSpace).filter
        (fun t => productFilter.contains t)).length
      = (products.filter
          (fun product => productFilter.contains (jsReplaceSpace product))).length := by
    rw [List.filter_map, List.length_map]
    rfl
  rw [← hlen]
  exact length_filter_contains_eq_iff h1 h2

/-- Witness for the amended C1: the spec example, with a space-carrying
category to exercise the transform; the record with both selected
categories matches. -/
theorem isMatch_iff_superset_witness :
    isMatch ["goat milk", "eggs"] ["goat_milk", "eggs"] = true :=
  (isMatch_iff_superset_of_nodup ["goat milk", "eggs"] ["goat_milk", "eggs"]
    (by decide) (by decide)).mpr (by decide)

/-- `prefixSeg` tests exactly the initial-segment relation. -/
theorem prefixSeg_iff : ∀ (n h : List Char),
    prefixSeg n h = true ↔ ∃ t, n ++ t = h
  | [], h => by simp [prefixSeg]
  | a :: n, [] => by simp [prefixSeg]
  | a :: n, b :: h => by
    simp [prefixSeg, Bool.and_eq_true, beq_iff_eq, prefixSeg_iff n h,
      List.cons_append, List.cons.injEq, exists_and_left]

/-- `containsSeg` tests exactly the contiguous-occurrence relation. -/
theorem containsSeg_iff : ∀ (n h : List Char),
    containsSeg n h = true ↔ SegIn n h
  | n, [] => by
    simp [containsSeg, SegIn, List.append_eq_nil]
  | n, c :: t => by
    simp only [containsSeg, Bool.or_eq_true, prefixSeg_iff, containsSeg_iff n t]
    constructor
    · rintro (⟨u, hu⟩ | ⟨p, q, hp⟩)
      · exact ⟨[], u, by simpa using hu⟩
      · exact ⟨c :: p, q, by simp [hp]⟩
    · rintro ⟨pre, post, hpre⟩
      cases pre with
      | nil => exact Or.inl ⟨post, by simpa using hpre⟩
      | cons a pre =>
        simp only [List.cons_append, List.cons.injEq] at hpre
        exact Or.inr ⟨pre, post, hpre.2⟩

/-- Contiguous occurrence is transitive. -/
theorem SegIn_trans {a b c : List Char} (h1 : SegIn a b) (h2 : SegIn b c) :
    SegIn a c := by
  obtain ⟨p1, q1, e1⟩ := h1
  obtain ⟨p2, q2, e2⟩ := h2
  exact ⟨p2 ++ p1, q1 ++ q2, by rw [← e2, ← e1]; simp [List.append_assoc]⟩

/-- Every list member occurs contiguously in the comma-space join. -/
theorem mem_joinCS_SegIn : ∀ {S : List String} {sel : String}, sel ∈ S →
    SegIn sel.data (joinCS S).data
  | [], sel, h => absurd h (List.not_mem_nil sel)
  | [s], sel, h => by
    have hs : sel = s := by simpa using h
    subst hs
    exact ⟨[], [], by simp [joinCS]⟩
  | s :: r :: rest, sel, h => by
    rcases List.mem_cons.mp h with h1 | h2
    · subst h1
      refine ⟨[], (", " ++ joinCS (r :: rest)).data, ?_⟩
      simp [joinCS, String.data_append, List.append_assoc]
    · obtain ⟨p, q, hpq⟩ := mem_joinCS_SegIn h2
      refine ⟨(s ++ ", ").data ++ p, q, ?_⟩
      simp [joinCS, String.data_append, ← hpq, List.append_assoc]

/-- C2 as stated is false: with selected categories Eggs and Honey, the
category Honey occurs in the raw products value Honey, yet the constructed
single LIKE clause (pattern percent Eggs-comma-space-Honey percent) does
not match it, so the expression does not have any-of semantics. -/
theorem featureFilter_not_disjunctive :
    "Honey" ∈ (["Eggs", "Honey"] : List String) ∧
    containsSeg "Honey".data "Honey".data = true ∧
    featureFilterMatches ["Eggs", "Honey"] "Honey" = false := by
  decide

/-- C2 (amended): the constructed attribute filter matches a feature
exactly when the comma-space join of the selected categories occurs
contiguously in the raw products field; in particular a match forces every
selected category to occur there (conjunctive, order-sensitive), not any
one of them. -/
theorem featureFilter_match_implies_all_categories
    (productFilter : List String) (mainProducts : String)
    (h : featureFilterMatches productFilter mainProducts = true) :
    ∀ sel ∈ productFilter, containsSeg sel.data mainProducts.data = true := by
  intro sel hsel
  have hj : SegIn (joinCS productFilter).data mainProducts.data :=
    (containsSeg_iff _ _).mp h
  exact (containsSeg_iff _ _).mpr (SegIn_trans (mem_joinCS_SegIn hsel) hj)

/-- Witness for the amended C2: a field value containing the joined
selection matches, and then each selected category indeed occurs in it. -/
theorem featureFilter_match_implies_all_categories_witness :
    containsSeg "Eggs".data "Fresh Eggs, Honey jars".data = true ∧
    containsSeg "Honey".data "Fresh Eggs, Honey jars".data = true :=
  ⟨featureFilter_match_implies_all_categories ["Eggs", "Honey"]
      "Fresh Eggs, Honey jars" (by decide) "Eggs" (by decide),
    featureFilter_match_implies_all_categories ["Eggs", "Honey"]
      "Fresh Eggs, Honey jars" (by decide) "Honey" (by decide)⟩

end FarmMap
